import Mathlib

/-!
Shallow embedding of the Bevara QDBMP BMP decoder filter (src/qdbmp.c).

The byte source handed to the filter is modelled as a `List Nat` of byte
values; reading consumes bytes from the front of the list, which matches the
strictly forward `fread` access pattern of the code (the code never seeks).
Machine integers are modelled as `Nat` with an explicit `% 2 ^ 32` where
32-bit unsigned overflow matters, and `% 256` where a value is stored into an
`unsigned char`.  `malloc`, `fmemopen` and `gf_filter_pck_new_alloc` are
assumed to succeed.  The buffer returned by `gf_filter_pck_new_alloc` is
fresh, uninitialized memory; its cells are modelled as `Option Nat`, where
`none` marks a cell the decode path never wrote.
-/

/-- BMP status codes of the QDBMP library, restricted to the constants that
src/qdbmp.c actually uses.  The enum itself is declared in qdbmp.h, which is
not part of the sources; the constructor names are exactly the identifiers
appearing in src/qdbmp.c. -/
inductive BMP_STATUS where
  | BMP_OK
  | BMP_IO_ERROR
  | BMP_INVALID_ARGUMENT
  | BMP_FILE_INVALID
  | BMP_FILE_NOT_SUPPORTED
  | BMP_OUT_OF_MEMORY
deriving DecidableEq

/-- GPAC filter error codes (external interface constants used by
src/qdbmp.c's process function). -/
inductive GF_Err where
  | GF_OK
  | GF_EOS
  | GF_NOT_SUPPORTED
  | GF_CORRUPTED_DATA
  | GF_OUT_OF_MEM
deriving DecidableEq

/-- The BMP header record.  The struct is declared in qdbmp.h (not part of the
sources); its field list and order are exactly the fields that `ReadHeader`
(src/qdbmp.c:125-152) populates, in the order it reads them. -/
structure BMP_Header where
  Magic : Nat
  FileSize : Nat
  Reserved1 : Nat
  Reserved2 : Nat
  DataOffset : Nat
  HeaderSize : Nat
  Width : Nat
  Height : Nat
  Planes : Nat
  BitsPerPixel : Nat
  CompressionType : Nat
  ImageDataSize : Nat
  HPixelsPerMeter : Nat
  VPixelsPerMeter : Nat
  ColorsUsed : Nat
  ColorsRequired : Nat
deriving DecidableEq

/-- The `unsigned char` stored at index `i` of a byte buffer (out-of-range
reads never happen on the paths we model; the default 0 is unreachable). -/
def byteAt (bs : List Nat) (i : Nat) : Nat := bs.getD i 0 % 256

/-- Little-endian 16-bit value at offset `i`: `little[1] << 8 | little[0]`.
For byte values the bitwise or of the two disjoint shifted bytes equals this
sum. -/
def u16le (bs : List Nat) (i : Nat) : Nat := byteAt bs i + byteAt bs (i + 1) * 256

/-- Little-endian 32-bit value at offset `i`:
`little[3] << 24 | little[2] << 16 | little[1] << 8 | little[0]`.
For byte values the bitwise or of the four disjoint shifted bytes equals this
sum. -/
def u32le (bs : List Nat) (i : Nat) : Nat :=
  byteAt bs i + byteAt bs (i + 1) * 256 + byteAt bs (i + 2) * 65536 +
    byteAt bs (i + 3) * 16777216

/-- The header fields read off a byte buffer at their documented fixed
offsets (0 magic, 2 file size, 6/8 reserved, 10 data offset, 14 header size,
18 width, 22 height, 26 planes, 28 bits per pixel, 30 compression,
34 image data size, 38/42 resolution, 46 colors used, 50 colors required).
This is the offset-table description that `ReadHeader` is proved to
implement. -/
def headerOfBytes (bs : List Nat) : BMP_Header :=
  { Magic := u16le bs 0
    FileSize := u32le bs 2
    Reserved1 := u16le bs 6
    Reserved2 := u16le bs 8
    DataOffset := u32le bs 10
    HeaderSize := u32le bs 14
    Width := u32le bs 18
    Height := u32le bs 22
    Planes := u16le bs 26
    BitsPerPixel := u16le bs 28
    CompressionType := u32le bs 30
    ImageDataSize := u32le bs 34
    HPixelsPerMeter := u32le bs 38
    VPixelsPerMeter := u32le bs 42
    ColorsUsed := u32le bs 46
    ColorsRequired := u32le bs 50 }

/-- ReadUSHORT (src/qdbmp.c:70-87): `fread` two bytes and assemble
`little[1] << 8 | little[0]`; fails (fread item count 0) when fewer than two
bytes remain. -/
def ReadUSHORT (bs : List Nat) : Option (Nat × List Nat) :=
  match bs with
  | b0 :: b1 :: rest => some (b0 % 256 + b1 % 256 * 256, rest)
  | _ => none

/-- ReadUINT (src/qdbmp.c:46-63): `fread` four bytes and assemble
`little[3] << 24 | little[2] << 16 | little[1] << 8 | little[0]`; fails when
fewer than four bytes remain. -/
def ReadUINT (bs : List Nat) : Option (Nat × List Nat) :=
  match bs with
  | b0 :: b1 :: b2 :: b3 :: rest =>
      some (b0 % 256 + b1 % 256 * 256 + b2 % 256 * 65536 + b3 % 256 * 16777216, rest)
  | _ => none

/-- ReadHeader (src/qdbmp.c:125-152): reads the sixteen header fields one by
one, little-endian, returning `BMP_IO_ERROR` as soon as an individual field
read fails.  The NULL-argument branch (`BMP_INVALID_ARGUMENT`) is not
modelled: the caller always passes freshly allocated, non-null arguments. -/
def ReadHeader (bs : List Nat) : Except BMP_STATUS (BMP_Header × List Nat) :=
  match ReadUSHORT bs with
  | none => Except.error BMP_STATUS.BMP_IO_ERROR
  | some (vMagic, bs) =>
  match ReadUINT bs with
  | none => Except.error BMP_STATUS.BMP_IO_ERROR
  | some (vFileSize, bs) =>
  match ReadUSHORT bs with
  | none => Except.error BMP_STATUS.BMP_IO_ERROR
  | some (vReserved1, bs) =>
  match ReadUSHORT bs with
  | none => Except.error BMP_STATUS.BMP_IO_ERROR
  | some (vReserved2, bs) =>
  match ReadUINT bs with
  | none => Except.error BMP_STATUS.BMP_IO_ERROR
  | some (vDataOffset, bs) =>
  match ReadUINT bs with
  | none => Except.error BMP_STATUS.BMP_IO_ERROR
  | some (vHeaderSize, bs) =>
  match ReadUINT bs with
  | none => Except.error BMP_STATUS.BMP_IO_ERROR
  | some (vWidth, bs) =>
  match ReadUINT bs with
  | none => Except.error BMP_STATUS.BMP_IO_ERROR
  | some (vHeight, bs) =>
  match ReadUSHORT bs with
  | none => Except.error BMP_STATUS.BMP_IO_ERROR
  | some (vPlanes, bs) =>
  match ReadUSHORT bs with
  | none => Except.error BMP_STATUS.BMP_IO_ERROR
  | some (vBitsPerPixel, bs) =>
  match ReadUINT bs with
  | none => Except.error BMP_STATUS.BMP_IO_ERROR
  | some (vCompressionType, bs) =>
  match ReadUINT bs with
  | none => Except.error BMP_STATUS.BMP_IO_ERROR
  | some (vImageDataSize, bs) =>
  match ReadUINT bs with
  | none => Except.error BMP_STATUS.BMP_IO_ERROR
  | some (vHPixelsPerMeter, bs) =>
  match ReadUINT bs with
  | none => Except.error BMP_STATUS.BMP_IO_ERROR
  | some (vVPixelsPerMeter, bs) =>
  match ReadUINT bs with
  | none => Except.error BMP_STATUS.BMP_IO_ERROR
  | some (vColorsUsed, bs) =>
  match ReadUINT bs with
  | none => Except.error BMP_STATUS.BMP_IO_ERROR
  | some (vColorsRequired, bs) =>
  Except.ok
    ({ Magic := vMagic, FileSize := vFileSize, Reserved1 := vReserved1,
       Reserved2 := vReserved2, DataOffset := vDataOffset,
       HeaderSize := vHeaderSize, Width := vWidth, Height := vHeight,
       Planes := vPlanes, BitsPerPixel := vBitsPerPixel,
       CompressionType := vCompressionType, ImageDataSize := vImageDataSize,
       HPixelsPerMeter := vHPixelsPerMeter, VPixelsPerMeter := vVPixelsPerMeter,
       ColorsUsed := vColorsUsed, ColorsRequired := vColorsRequired }, bs)

/-- Modelled from the spec: `BMP_GetWidth` is declared in qdbmp.h, which is
not part of the sources; per the data model (spec section 3) it returns the
header's width field. -/
def BMP_GetWidth (hdr : BMP_Header) : Nat := hdr.Width

/-- Modelled from the spec: `BMP_GetHeight` is declared in qdbmp.h, which is
not part of the sources; per the data model it returns the header's height
field. -/
def BMP_GetHeight (hdr : BMP_Header) : Nat := hdr.Height

/-- Modelled from the spec: `BMP_GetDepth` is declared in qdbmp.h, which is
not part of the sources; it returns the header's bits-per-pixel field. -/
def BMP_GetDepth (hdr : BMP_Header) : Nat := hdr.BitsPerPixel

/-- The output packet a successful run of the process function sends, with
the pid properties it sets: payload cells (`none` = never written by the
decoder), the WIDTH/HEIGHT/STRIDE properties, and whether the 32-bpp case set
the GF_PIXEL_RGBX pixel-format property. -/
structure SentPacket where
  payload : List (Option Nat)
  width : Nat
  height : Nat
  stride : Nat
  pixfmtRGBX : Bool
deriving DecidableEq

/-- Observable outcome of one call of the process function: the returned
`GF_Err`, the packet sent (if any), the value of the global
`BMP_LAST_ERROR_CODE` after the call, whether the output packet was
allocated, and how many palette bytes and pixel bytes were consumed from the
source. -/
structure ProcResult where
  err : GF_Err
  sent : Option SentPacket
  lastError : BMP_STATUS
  pckAllocated : Bool
  paletteBytesRead : Nat
  pixelBytesRead : Nat
deriving DecidableEq

/-- The value of the local `palettesize` after the two assignments at
src/qdbmp.c:284-285.  The variable is declared uninitialized
(src/qdbmp.c:252) and is assigned only when BitsPerPixel is 8 or 4, so for
any other depth it keeps its indeterminate initial value `palettesize0`. -/
def palettesizeOf (bpp palettesize0 : Nat) : Nat :=
  if bpp = 8 then 256 * 4 else if bpp = 4 then 16 * 4 else palettesize0

/-- The per-depth switch of QDBMP_process (src/qdbmp.c:326-351) together with
the property-setting and packet-sending tail (src/qdbmp.c:366-377), entered
after the output packet has been allocated with `width*height*4` bytes in
32-bit arithmetic (src/qdbmp.c:324).
Case 32 sets GF_PIXEL_RGBX and does one unchecked `fread` of
`width*height*4` bytes straight into the output (no channel reordering, no
row flip; a short read leaves the tail of the buffer unwritten and is not
detected).  Cases 24 and 8 return GF_NOT_SUPPORTED immediately, after the
packet was already allocated, without writing the error global.  Depth 4 has
no case: control falls through the switch with the output never written, and
the packet is sent with GF_OK like a successful decode. -/
def QDBMP_decodeStage (hdr : BMP_Header) (rest : List Nat) (palRead : Nat)
    (g : BMP_STATUS) : ProcResult :=
  if BMP_GetDepth hdr = 32 then
    let outSize := BMP_GetWidth hdr * BMP_GetHeight hdr * 4 % 2 ^ 32
    let k := min outSize rest.length
    { err := GF_Err.GF_OK
      sent := some
        { payload := (rest.take k).map (fun b => some (b % 256)) ++
            List.replicate (outSize - k) (none : Option Nat)
          width := BMP_GetWidth hdr
          height := BMP_GetHeight hdr
          stride := 4 * BMP_GetWidth hdr % 2 ^ 32
          pixfmtRGBX := true }
      lastError := g
      pckAllocated := true
      paletteBytesRead := palRead
      pixelBytesRead := k }
  else if BMP_GetDepth hdr = 24 then
    { err := GF_Err.GF_NOT_SUPPORTED, sent := none, lastError := g,
      pckAllocated := true, paletteBytesRead := palRead, pixelBytesRead := 0 }
  else if BMP_GetDepth hdr = 8 then
    { err := GF_Err.GF_NOT_SUPPORTED, sent := none, lastError := g,
      pckAllocated := true, paletteBytesRead := palRead, pixelBytesRead := 0 }
  else
    { err := GF_Err.GF_OK
      sent := some
        { payload := List.replicate (BMP_GetWidth hdr * BMP_GetHeight hdr * 4 % 2 ^ 32)
            (none : Option Nat)
          width := BMP_GetWidth hdr
          height := BMP_GetHeight hdr
          stride := 4 * BMP_GetWidth hdr % 2 ^ 32
          pixfmtRGBX := false }
      lastError := g
      pckAllocated := true
      paletteBytesRead := palRead
      pixelBytesRead := 0 }

/-- The part of QDBMP_process after a successful header read
(src/qdbmp.c:276-322): the magic check, the supported-variant check, and the
palette stage, continuing into `QDBMP_decodeStage`.  `rest` is the byte
source positioned right after the 54 header bytes; `palettesize0` is the
indeterminate initial value of the uninitialized local `palettesize`; `g` is
the value of the global `BMP_LAST_ERROR_CODE` before the call. -/
def QDBMP_afterHeader (hdr : BMP_Header) (rest : List Nat) (palettesize0 : Nat)
    (g : BMP_STATUS) : ProcResult :=
  if hdr.Magic ≠ 0x4D42 then
    { err := GF_Err.GF_CORRUPTED_DATA, sent := none,
      lastError := BMP_STATUS.BMP_FILE_INVALID, pckAllocated := false,
      paletteBytesRead := 0, pixelBytesRead := 0 }
  else if (hdr.BitsPerPixel ≠ 32 ∧ hdr.BitsPerPixel ≠ 24 ∧
      hdr.BitsPerPixel ≠ 8 ∧ hdr.BitsPerPixel ≠ 4) ∨
      hdr.CompressionType ≠ 0 ∨ hdr.HeaderSize ≠ 40 then
    { err := GF_Err.GF_NOT_SUPPORTED, sent := none,
      lastError := BMP_STATUS.BMP_FILE_NOT_SUPPORTED, pckAllocated := false,
      paletteBytesRead := 0, pixelBytesRead := 0 }
  else if 0 < palettesizeOf hdr.BitsPerPixel palettesize0 then
    if rest.length < palettesizeOf hdr.BitsPerPixel palettesize0 then
      { err := GF_Err.GF_CORRUPTED_DATA, sent := none,
        lastError := BMP_STATUS.BMP_FILE_INVALID, pckAllocated := false,
        paletteBytesRead := rest.length, pixelBytesRead := 0 }
    else
      QDBMP_decodeStage hdr (rest.drop (palettesizeOf hdr.BitsPerPixel palettesize0))
        (palettesizeOf hdr.BitsPerPixel palettesize0) g
  else
    QDBMP_decodeStage hdr rest 0 g

/-- QDBMP_process (src/qdbmp.c:245-525), the decode path for one complete
input packet whose bytes are `data`.  The condition at src/qdbmp.c:276 is
`ReadHeader(...) != BMP_OK || Magic != 0x4D42`, both arms producing the same
observable result; here the read failure is the outer match and the magic
check is the first branch of `QDBMP_afterHeader`. -/
def QDBMP_process (data : List Nat) (palettesize0 : Nat) (g : BMP_STATUS) :
    ProcResult :=
  match ReadHeader data with
  | Except.error _ =>
      { err := GF_Err.GF_CORRUPTED_DATA, sent := none,
        lastError := BMP_STATUS.BMP_FILE_INVALID, pckAllocated := false,
        paletteBytesRead := 0, pixelBytesRead := 0 }
  | Except.ok (hdr, rest) => QDBMP_afterHeader hdr rest palettesize0 g

/-- Modelled from the spec: the source row stride the spec prescribes,
`ceil(width * bitsPerPixel / 8)` rounded up to the next multiple of 4.  This
is the comparison target for the stride claims, not code from the repo. -/
def specSourceStride (width bpp : Nat) : Nat := ((width * bpp + 7) / 8 + 3) / 4 * 4

/-- The stride computed by the unreachable 24-bpp draft at
src/qdbmp.c:335-337 (dead code behind the `return GF_NOT_SUPPORTED`): it
aligns the pixel count, not the byte count, and is later used as `stride * 3`
bytes per row. -/
def draftStride24 (width : Nat) : Nat :=
  if width % 4 ≠ 0 then width + (4 - width % 4) else width

/-- Little-endian encoding of a 16-bit value, for building test inputs. -/
def le16 (n : Nat) : List Nat := [n % 256, n / 256 % 256]

/-- Little-endian encoding of a 32-bit value, for building test inputs. -/
def le32 (n : Nat) : List Nat :=
  [n % 256, n / 256 % 256, n / 65536 % 256, n / 16777216 % 256]

/-- A syntactically valid 54-byte BMP header: magic "BM", data offset 54,
info-header size 40, planes 1, and the given width, height, bits-per-pixel
and compression type. -/
def mkBMPHeaderBytes (width height bpp compression : Nat) : List Nat :=
  [0x42, 0x4D] ++ le32 0 ++ le16 0 ++ le16 0 ++ le32 54 ++
  le32 40 ++ le32 width ++ le32 height ++ le16 1 ++ le16 bpp ++
  le32 compression ++ le32 0 ++ le32 0 ++ le32 0 ++ le32 0 ++ le32 0

/-- Helper: on a source of at least 54 bytes, `ReadHeader` succeeds, returns
exactly the fields of `headerOfBytes`, and leaves exactly the bytes after the
first 54. -/
theorem ReadHeader_ok (bs : List Nat) (h : 54 ≤ bs.length) :
    ReadHeader bs = Except.ok (headerOfBytes bs, bs.drop 54) := by
  rcases bs with _ | ⟨a, bs⟩
  · simp at h
  rcases bs with _ | ⟨a, bs⟩
  · simp at h
  rcases bs with _ | ⟨a, bs⟩
  · simp at h
  rcases bs with _ | ⟨a, bs⟩
  · simp at h
  rcases bs with _ | ⟨a, bs⟩
  · simp at h
  rcases bs with _ | ⟨a, bs⟩
  · simp at h
  rcases bs with _ | ⟨a, bs⟩
  · simp at h
  rcases bs with _ | ⟨a, bs⟩
  · simp at h
  rcases bs with _ | ⟨a, bs⟩
  · simp at h
  rcases bs with _ | ⟨a, bs⟩
  · simp at h
  rcases bs with _ | ⟨a, bs⟩
  · simp at h
  rcases bs with _ | ⟨a, bs⟩
  · simp at h
  rcases bs with _ | ⟨a, bs⟩
  · simp at h
  rcases bs with _ | ⟨a, bs⟩
  · simp at h
  rcases bs with _ | ⟨a, bs⟩
  · simp at h
  rcases bs with _ | ⟨a, bs⟩
  · simp at h
  rcases bs with _ | ⟨a, bs⟩
  · simp at h
  rcases bs with _ | ⟨a, bs⟩
  · simp at h
  rcases bs with _ | ⟨a, bs⟩
  · simp at h
  rcases bs with _ | ⟨a, bs⟩
  · simp at h
  rcases bs with _ | ⟨a, bs⟩
  · simp at h
  rcases bs with _ | ⟨a, bs⟩
  · simp at h
  rcases bs with _ | ⟨a, bs⟩
  · simp at h
  rcases bs with _ | ⟨a, bs⟩
  · simp at h
  rcases bs with _ | ⟨a, bs⟩
  · simp at h
  rcases bs with _ | ⟨a, bs⟩
  · simp at h
  rcases bs with _ | ⟨a, bs⟩
  · simp at h
  rcases bs with _ | ⟨a, bs⟩
  · simp at h
  rcases bs with _ | ⟨a, bs⟩
  · simp at h
  rcases bs with _ | ⟨a, bs⟩
  · simp at h
  rcases bs with _ | ⟨a, bs⟩
  · simp at h
  rcases bs with _ | ⟨a, bs⟩
  · simp at h
  rcases bs with _ | ⟨a, bs⟩
  · simp at h
  rcases bs with _ | ⟨a, bs⟩
  · simp at h
  rcases bs with _ | ⟨a, bs⟩
  · simp at h
  rcases bs with _ | ⟨a, bs⟩
  · simp at h
  rcases bs with _ | ⟨a, bs⟩
  · simp at h
  rcases bs with _ | ⟨a, bs⟩
  · simp at h
  rcases bs with _ | ⟨a, bs⟩
  · simp at h
  rcases bs with _ | ⟨a, bs⟩
  · simp at h
  rcases bs with _ | ⟨a, bs⟩
  · simp at h
  rcases bs with _ | ⟨a, bs⟩
  · simp at h
  rcases bs with _ | ⟨a, bs⟩
  · simp at h
  rcases bs with _ | ⟨a, bs⟩
  · simp at h
  rcases bs with _ | ⟨a, bs⟩
  · simp at h
  rcases bs with _ | ⟨a, bs⟩
  · simp at h
  rcases bs with _ | ⟨a, bs⟩
  · simp at h
  rcases bs with _ | ⟨a, bs⟩
  · simp at h
  rcases bs with _ | ⟨a, bs⟩
  · simp at h
  rcases bs with _ | ⟨a, bs⟩
  · simp at h
  rcases bs with _ | ⟨a, bs⟩
  · simp at h
  rcases bs with _ | ⟨a, bs⟩
  · simp at h
  rcases bs with _ | ⟨a, bs⟩
  · simp at h
  rcases bs with _ | ⟨a, bs⟩
  · simp at h
  rfl

/-- Helper: on a source of fewer than 54 bytes, `ReadHeader` fails with
`BMP_IO_ERROR` (some individual field read runs out of bytes). -/
theorem ReadHeader_err (bs : List Nat) (h : bs.length < 54) :
    ReadHeader bs = Except.error BMP_STATUS.BMP_IO_ERROR := by
  rcases bs with _ | ⟨a, bs⟩
  · rfl
  rcases bs with _ | ⟨a, bs⟩
  · rfl
  rcases bs with _ | ⟨a, bs⟩
  · rfl
  rcases bs with _ | ⟨a, bs⟩
  · rfl
  rcases bs with _ | ⟨a, bs⟩
  · rfl
  rcases bs with _ | ⟨a, bs⟩
  · rfl
  rcases bs with _ | ⟨a, bs⟩
  · rfl
  rcases bs with _ | ⟨a, bs⟩
  · rfl
  rcases bs with _ | ⟨a, bs⟩
  · rfl
  rcases bs with _ | ⟨a, bs⟩
  · rfl
  rcases bs with _ | ⟨a, bs⟩
  · rfl
  rcases bs with _ | ⟨a, bs⟩
  · rfl
  rcases bs with _ | ⟨a, bs⟩
  · rfl
  rcases bs with _ | ⟨a, bs⟩
  · rfl
  rcases bs with _ | ⟨a, bs⟩
  · rfl
  rcases bs with _ | ⟨a, bs⟩
  · rfl
  rcases bs with _ | ⟨a, bs⟩
  · rfl
  rcases bs with _ | ⟨a, bs⟩
  · rfl
  rcases bs with _ | ⟨a, bs⟩
  · rfl
  rcases bs with _ | ⟨a, bs⟩
  · rfl
  rcases bs with _ | ⟨a, bs⟩
  · rfl
  rcases bs with _ | ⟨a, bs⟩
  · rfl
  rcases bs with _ | ⟨a, bs⟩
  · rfl
  rcases bs with _ | ⟨a, bs⟩
  · rfl
  rcases bs with _ | ⟨a, bs⟩
  · rfl
  rcases bs with _ | ⟨a, bs⟩
  · rfl
  rcases bs with _ | ⟨a, bs⟩
  · rfl
  rcases bs with _ | ⟨a, bs⟩
  · rfl
  rcases bs with _ | ⟨a, bs⟩
  · rfl
  rcases bs with _ | ⟨a, bs⟩
  · rfl
  rcases bs with _ | ⟨a, bs⟩
  · rfl
  rcases bs with _ | ⟨a, bs⟩
  · rfl
  rcases bs with _ | ⟨a, bs⟩
  · rfl
  rcases bs with _ | ⟨a, bs⟩
  · rfl
  rcases bs with _ | ⟨a, bs⟩
  · rfl
  rcases bs with _ | ⟨a, bs⟩
  · rfl
  rcases bs with _ | ⟨a, bs⟩
  · rfl
  rcases bs with _ | ⟨a, bs⟩
  · rfl
  rcases bs with _ | ⟨a, bs⟩
  · rfl
  rcases bs with _ | ⟨a, bs⟩
  · rfl
  rcases bs with _ | ⟨a, bs⟩
  · rfl
  rcases bs with _ | ⟨a, bs⟩
  · rfl
  rcases bs with _ | ⟨a, bs⟩
  · rfl
  rcases bs with _ | ⟨a, bs⟩
  · rfl
  rcases bs with _ | ⟨a, bs⟩
  · rfl
  rcases bs with _ | ⟨a, bs⟩
  · rfl
  rcases bs with _ | ⟨a, bs⟩
  · rfl
  rcases bs with _ | ⟨a, bs⟩
  · rfl
  rcases bs with _ | ⟨a, bs⟩
  · rfl
  rcases bs with _ | ⟨a, bs⟩
  · rfl
  rcases bs with _ | ⟨a, bs⟩
  · rfl
  rcases bs with _ | ⟨a, bs⟩
  · rfl
  rcases bs with _ | ⟨a, bs⟩
  · rfl
  rcases bs with _ | ⟨a, bs⟩
  · rfl
  simp only [List.length_cons] at h
  omega

/-- Helper: on a source of at least 54 bytes, the process function is the
after-header stage applied to the parsed header and the remaining bytes. -/
theorem process_eq (bs : List Nat) (psz : Nat) (g : BMP_STATUS)
    (h : 54 ≤ bs.length) :
    QDBMP_process bs psz g = QDBMP_afterHeader (headerOfBytes bs) (bs.drop 54) psz g := by
  unfold QDBMP_process
  rw [ReadHeader_ok bs h]

/-- C1: at a 1-by-1 32-bpp input whose single source pixel is the
blue-green-red-alpha quadruple (10, 20, 30, 40), the process function copies
the four source bytes into the output verbatim, so the packet carries
blue-green-red-alpha order, not the red-green-blue-alpha order the claim
states (which would be the distinct list [30, 20, 10, 40]). -/
theorem C1_channel_order_bug :
    (QDBMP_process (mkBMPHeaderBytes 1 1 32 0 ++ [10, 20, 30, 40]) 0
        BMP_STATUS.BMP_OK).sent =
      some { payload := [some 10, some 20, some 30, some 40], width := 1,
             height := 1, stride := 4, pixfmtRGBX := true } ∧
    ([some 10, some 20, some 30, some 40] : List (Option Nat)) ≠
      [some 30, some 20, some 10, some 40] := by decide

/-- C2: at a 2-by-2 32-bpp input with distinguishable rows, the process
function copies the pixel array verbatim, so output row 0 equals source row 0
(the stored bottom row), not source row 1 as the claimed vertical flip
requires; the two rows are distinct, so the orders differ observably. -/
theorem C2_no_vertical_flip :
    (QDBMP_process (mkBMPHeaderBytes 2 2 32 0 ++
        [1, 1, 1, 255, 2, 2, 2, 255, 3, 3, 3, 255, 4, 4, 4, 255]) 0
        BMP_STATUS.BMP_OK).sent =
      some { payload := [some 1, some 1, some 1, some 255, some 2, some 2,
               some 2, some 255, some 3, some 3, some 3, some 255, some 4,
               some 4, some 4, some 255],
             width := 2, height := 2, stride := 8, pixfmtRGBX := true } ∧
    ([some 1, some 1, some 1, some 255, some 2, some 2, some 2, some 255] :
        List (Option Nat)) ≠
      [some 3, some 3, some 3, some 255, some 4, some 4, some 4, some 255] := by decide

/-- C3: at a 1-by-2 32-bpp input whose pixel data is truncated to 4 of the
required 8 bytes, the process function returns GF_OK and sends a partially
written buffer (four written cells followed by four never-written cells), and
at a valid 24-bpp input it allocates the output packet and then returns
GF_NOT_SUPPORTED without sending or releasing it - both contradicting
all-or-nothing failure semantics. -/
theorem C3_partial_write_sent :
    (QDBMP_process (mkBMPHeaderBytes 1 2 32 0 ++ [9, 8, 7, 6]) 0
        BMP_STATUS.BMP_OK).err = GF_Err.GF_OK ∧
    (QDBMP_process (mkBMPHeaderBytes 1 2 32 0 ++ [9, 8, 7, 6]) 0
        BMP_STATUS.BMP_OK).sent =
      some { payload := [some 9, some 8, some 7, some 6, none, none, none, none],
             width := 1, height := 2, stride := 4, pixfmtRGBX := true } ∧
    (QDBMP_process (mkBMPHeaderBytes 1 1 24 0) 0 BMP_STATUS.BMP_OK).err =
      GF_Err.GF_NOT_SUPPORTED ∧
    (QDBMP_process (mkBMPHeaderBytes 1 1 24 0) 0 BMP_STATUS.BMP_OK).pckAllocated = true ∧
    (QDBMP_process (mkBMPHeaderBytes 1 1 24 0) 0 BMP_STATUS.BMP_OK).sent = none := by decide

/-- C4 counterexample: a header with width 0 and height 0 but valid magic,
header size, compression and bit depth is not rejected - the decode returns
GF_OK and sends a packet - and a bpp-16 header and a compression-1 header
produce the identical result, so no per-rule typed error exists. -/
theorem C4_counterexample :
    (QDBMP_process (mkBMPHeaderBytes 0 0 32 0) 0 BMP_STATUS.BMP_OK).err =
      GF_Err.GF_OK ∧
    (QDBMP_process (mkBMPHeaderBytes 0 0 32 0) 0 BMP_STATUS.BMP_OK).sent ≠ none ∧
    QDBMP_process (mkBMPHeaderBytes 1 1 16 0) 0 BMP_STATUS.BMP_OK =
      QDBMP_process (mkBMPHeaderBytes 5 7 24 1) 0 BMP_STATUS.BMP_OK := by decide

/-- C4 (amended): on any source long enough for a header, a wrong magic is
rejected first, with BMP_FILE_INVALID / GF_CORRUPTED_DATA, regardless of the
other fields; with the magic right, any violation of the remaining three
rules (bit depth in {32, 24, 8, 4}, compression 0, header size 40) is
rejected with the single undifferentiated error BMP_FILE_NOT_SUPPORTED /
GF_NOT_SUPPORTED; width and height are never examined by validation. -/
theorem C4_validator_amended (bs : List Nat) (psz : Nat) (g : BMP_STATUS)
    (hlen : 54 ≤ bs.length) :
    ((headerOfBytes bs).Magic ≠ 0x4D42 →
      QDBMP_process bs psz g =
        { err := GF_Err.GF_CORRUPTED_DATA, sent := none,
          lastError := BMP_STATUS.BMP_FILE_INVALID, pckAllocated := false,
          paletteBytesRead := 0, pixelBytesRead := 0 }) ∧
    ((headerOfBytes bs).Magic = 0x4D42 →
      (((headerOfBytes bs).BitsPerPixel ≠ 32 ∧ (headerOfBytes bs).BitsPerPixel ≠ 24 ∧
        (headerOfBytes bs).BitsPerPixel ≠ 8 ∧ (headerOfBytes bs).BitsPerPixel ≠ 4) ∨
        (headerOfBytes bs).CompressionType ≠ 0 ∨ (headerOfBytes bs).HeaderSize ≠ 40) →
      QDBMP_process bs psz g =
        { err := GF_Err.GF_NOT_SUPPORTED, sent := none,
          lastError := BMP_STATUS.BMP_FILE_NOT_SUPPORTED, pckAllocated := false,
          paletteBytesRead := 0, pixelBytesRead := 0 }) := by
  rw [process_eq bs psz g hlen]
  constructor
  · intro hm
    unfold QDBMP_afterHeader
    rw [if_pos hm]
  · intro hm hbad
    unfold QDBMP_afterHeader
    rw [if_neg (not_not_intro hm), if_pos hbad]

/-- C4 witness: the amended validator theorem applied to a concrete bpp-16
header. -/
theorem C4_validator_amended_witness :
    QDBMP_process (mkBMPHeaderBytes 1 1 16 0) 0 BMP_STATUS.BMP_OK =
      { err := GF_Err.GF_NOT_SUPPORTED, sent := none,
        lastError := BMP_STATUS.BMP_FILE_NOT_SUPPORTED, pckAllocated := false,
        paletteBytesRead := 0, pixelBytesRead := 0 } :=
  (C4_validator_amended (mkBMPHeaderBytes 1 1 16 0) 0 BMP_STATUS.BMP_OK
    (by decide)).2 (by decide) (by decide)

/-- C5: the header reader consumes exactly 54 bytes, populating every field
as the little-endian integer at its documented offset without validating any
value, and fails with BMP_IO_ERROR whenever fewer than 54 bytes are
available (some individual field read runs short). -/
theorem C5_headerReader_contract (bs : List Nat) :
    (54 ≤ bs.length → ReadHeader bs = Except.ok (headerOfBytes bs, bs.drop 54)) ∧
    (bs.length < 54 → ReadHeader bs = Except.error BMP_STATUS.BMP_IO_ERROR) :=
  ⟨ReadHeader_ok bs, ReadHeader_err bs⟩

/-- C5 witness: the header-reader contract applied to a concrete 54-byte
header and to a concrete 2-byte truncated source. -/
theorem C5_headerReader_contract_witness :
    ReadHeader (mkBMPHeaderBytes 2 3 32 0) =
      Except.ok (headerOfBytes (mkBMPHeaderBytes 2 3 32 0),
        (mkBMPHeaderBytes 2 3 32 0).drop 54) ∧
    ReadHeader [66, 77] = Except.error BMP_STATUS.BMP_IO_ERROR :=
  ⟨(C5_headerReader_contract (mkBMPHeaderBytes 2 3 32 0)).1 (by decide),
   (C5_headerReader_contract [66, 77]).2 (by decide)⟩

/-- C6: at a valid 1-by-1 24-bpp input followed by four bytes, the palette
stage reads whatever the uninitialized `palettesize` happens to hold: with
indeterminate value 4 it consumes four palette bytes for a non-indexed image,
with indeterminate value 5 the whole decode fails with GF_CORRUPTED_DATA, and
only with indeterminate value 0 does it read nothing as the claim states. -/
theorem C6_palette_uninitialized :
    (QDBMP_process (mkBMPHeaderBytes 1 1 24 0 ++ [5, 6, 7, 8]) 4
        BMP_STATUS.BMP_OK).paletteBytesRead = 4 ∧
    (QDBMP_process (mkBMPHeaderBytes 1 1 24 0 ++ [5, 6, 7, 8]) 5
        BMP_STATUS.BMP_OK).err = GF_Err.GF_CORRUPTED_DATA ∧
    (QDBMP_process (mkBMPHeaderBytes 1 1 24 0 ++ [5, 6, 7, 8]) 0
        BMP_STATUS.BMP_OK).paletteBytesRead = 0 := by decide

/-- C7 counterexample: a 4-bpp input that passes header validation (magic,
depth, compression and header size all valid) but whose source ends before
the 64 palette bytes fails with GF_CORRUPTED_DATA and sends nothing, so the
claim's conclusion does not hold for every 4-bpp input that passes header
validation. -/
theorem C7_counterexample :
    (headerOfBytes (mkBMPHeaderBytes 1 1 4 0)).Magic = 0x4D42 ∧
    (headerOfBytes (mkBMPHeaderBytes 1 1 4 0)).BitsPerPixel = 4 ∧
    (headerOfBytes (mkBMPHeaderBytes 1 1 4 0)).CompressionType = 0 ∧
    (headerOfBytes (mkBMPHeaderBytes 1 1 4 0)).HeaderSize = 40 ∧
    (QDBMP_process (mkBMPHeaderBytes 1 1 4 0) 0 BMP_STATUS.BMP_OK).err =
      GF_Err.GF_CORRUPTED_DATA ∧
    (QDBMP_process (mkBMPHeaderBytes 1 1 4 0) 0 BMP_STATUS.BMP_OK).sent = none := by decide

/-- C7 (amended): every 4-bpp input that passes header validation and whose
64-byte palette read succeeds falls through the per-depth switch without
reading a single pixel byte, sends the freshly allocated width*height*4
output packet with every cell never written, and returns GF_OK. -/
theorem C7_depth4_fallthrough (bs : List Nat) (psz : Nat) (g : BMP_STATUS)
    (hm : (headerOfBytes bs).Magic = 0x4D42)
    (hb : (headerOfBytes bs).BitsPerPixel = 4)
    (hc : (headerOfBytes bs).CompressionType = 0)
    (hh : (headerOfBytes bs).HeaderSize = 40)
    (hlen : 118 ≤ bs.length) :
    QDBMP_process bs psz g =
      { err := GF_Err.GF_OK
        sent := some
          { payload := List.replicate
              ((headerOfBytes bs).Width * (headerOfBytes bs).Height * 4 % 2 ^ 32)
              (none : Option Nat)
            width := (headerOfBytes bs).Width
            height := (headerOfBytes bs).Height
            stride := 4 * (headerOfBytes bs).Width % 2 ^ 32
            pixfmtRGBX := false }
        lastError := g
        pckAllocated := true
        paletteBytesRead := 64
        pixelBytesRead := 0 } := by
  rw [process_eq bs psz g (by omega)]
  unfold QDBMP_afterHeader
  rw [if_neg (not_not_intro hm)]
  rw [if_neg (by simp [hb, hc, hh])]
  rw [show palettesizeOf (headerOfBytes bs).BitsPerPixel psz = 64 by
    simp [palettesizeOf, hb]]
  rw [if_pos (by norm_num)]
  rw [if_neg (by simp only [List.length_drop]; omega)]
  unfold QDBMP_decodeStage
  rw [show BMP_GetDepth (headerOfBytes bs) = 4 from hb]
  norm_num [BMP_GetWidth, BMP_GetHeight]

/-- C7 witness: the amended fall-through theorem applied to a concrete
1-by-1 4-bpp input with a full 64-byte palette. -/
theorem C7_depth4_fallthrough_witness :
    QDBMP_process (mkBMPHeaderBytes 1 1 4 0 ++ List.replicate 64 171) 0
        BMP_STATUS.BMP_OK =
      { err := GF_Err.GF_OK,
        sent := some { payload := [none, none, none, none], width := 1,
                       height := 1, stride := 4, pixfmtRGBX := false },
        lastError := BMP_STATUS.BMP_OK, pckAllocated := true,
        paletteBytesRead := 64, pixelBytesRead := 0 } :=
  (C7_depth4_fallthrough (mkBMPHeaderBytes 1 1 4 0 ++ List.replicate 64 171) 0
    BMP_STATUS.BMP_OK (by decide) (by decide) (by decide) (by decide)
    (by decide)).trans (by decide)

/-- C8: at width 5, depth 24 - the claim's own concrete case - the process
function returns GF_NOT_SUPPORTED without reading any pixel byte, so no
source row stride is used at all; the only 24-bpp stride computation in the
file, the unreachable draft, would use 24 bytes per row where the claimed
formula requires 16. -/
theorem C8_stride_claim_bug :
    (QDBMP_process (mkBMPHeaderBytes 5 1 24 0) 0 BMP_STATUS.BMP_OK).err =
      GF_Err.GF_NOT_SUPPORTED ∧
    (QDBMP_process (mkBMPHeaderBytes 5 1 24 0) 0 BMP_STATUS.BMP_OK).pixelBytesRead = 0 ∧
    draftStride24 5 * 3 = 24 ∧
    specSourceStride 5 24 = 16 := by decide

/-- C9: at width 65536, height 65536, depth 32, the 32-bit product
width*height*4 wraps to 0: the process function allocates a zero-byte
output packet, sends it, and returns GF_OK - no overflow check and no
ImageTooLarge-style failure exists. -/
theorem C9_no_overflow_check :
    (QDBMP_process (mkBMPHeaderBytes 65536 65536 32 0) 0 BMP_STATUS.BMP_OK).err =
      GF_Err.GF_OK ∧
    (QDBMP_process (mkBMPHeaderBytes 65536 65536 32 0) 0 BMP_STATUS.BMP_OK).sent =
      some { payload := [], width := 65536, height := 65536, stride := 262144,
             pixfmtRGBX := true } ∧
    65536 * 65536 * 4 % 2 ^ 32 = 0 := by decide

/-- C10 counterexample: a decode call on a wrong-magic source overwrites the
process-wide global BMP_LAST_ERROR_CODE, changing it from BMP_OK to
BMP_FILE_INVALID, so shared mutable state is affected by a decode call. -/
theorem C10_counterexample :
    (QDBMP_process (65 :: List.replicate 53 0) 0 BMP_STATUS.BMP_OK).lastError =
      BMP_STATUS.BMP_FILE_INVALID ∧
    BMP_STATUS.BMP_FILE_INVALID ≠ BMP_STATUS.BMP_OK := by decide

/-- C10 (amended): the decode result is a pure function of the input bytes
and the indeterminate initial values - the prior value of the process-wide
BMP_LAST_ERROR_CODE global never influences the returned error, the sent
packet, the allocation, or the bytes consumed - although failing decode
calls do write that global. -/
theorem C10_global_write_only (bs : List Nat) (psz : Nat) (g g2 : BMP_STATUS) :
    (QDBMP_process bs psz g).err = (QDBMP_process bs psz g2).err ∧
    (QDBMP_process bs psz g).sent = (QDBMP_process bs psz g2).sent ∧
    (QDBMP_process bs psz g).pckAllocated = (QDBMP_process bs psz g2).pckAllocated ∧
    (QDBMP_process bs psz g).paletteBytesRead = (QDBMP_process bs psz g2).paletteBytesRead ∧
    (QDBMP_process bs psz g).pixelBytesRead = (QDBMP_process bs psz g2).pixelBytesRead := by
  unfold QDBMP_process
  cases hR : ReadHeader bs with
  | error e => exact ⟨rfl, rfl, rfl, rfl, rfl⟩
  | ok p =>
    obtain ⟨hdr, rest⟩ := p
    unfold QDBMP_afterHeader QDBMP_decodeStage
    dsimp only
    split_ifs <;> exact ⟨rfl, rfl, rfl, rfl, rfl⟩
